import Mathlib

/-!
Verification of the query-routing and retrieval pipeline of the
document-aware chat assistant (files `llm_manager.py`, `llm_api_utils.py`,
`rag_engine.py`, `app.py`).

The Python code is shallowly embedded: pure data flow becomes Lean
functions, external collaborators (the LLM endpoint, the HANA vector
index, the history-aware retriever chain) become explicit outcome
parameters, and Python exceptions become `Except PyExc`.
-/

namespace Crave

/-- Python exceptions that the embedded code can raise or catch. -/
inductive PyExc where
  | attributeError
  | indexError
  | typeError
  | keyError
  | runtimeError
deriving DecidableEq

/-- JSON values as produced by Python `json.loads`.  Numbers are modelled
as integers (no claim depends on float payloads).  Object key lists are
assumed duplicate-free, as `json.loads` produces. -/
inductive JValue where
  | jnull
  | jbool (b : Bool)
  | jnum (n : Int)
  | jstr (s : String)
  | jarr (xs : List JValue)
  | jobj (kvs : List (String × JValue))

/-- Python truthiness of a JSON value (`if v:`). -/
def JValue.truthy : JValue → Bool
  | .jnull => false
  | .jbool b => b
  | .jnum n => n != 0
  | .jstr s => !s.isEmpty
  | .jarr xs => !xs.isEmpty
  | .jobj kvs => !kvs.isEmpty

/-- Python `d.get(k, default)` on a value that the code uses as a dict.
Missing key yields the default; `.get` on a non-dict raises
`AttributeError` (which is what CPython does for lists, strings, None,
numbers and booleans). -/
def JValue.getDict (v : JValue) (k : String) (dflt : JValue) : Except PyExc JValue :=
  match v with
  | .jobj kvs => .ok ((kvs.lookup k).getD dflt)
  | _ => .error .attributeError

/-- Total variant of `JValue.getDict` for a value already known to be a
dict, used when the Python code has already established that. -/
def dictGet (kvs : List (String × JValue)) (k : String) : JValue :=
  (kvs.lookup k).getD .jnull

/-- Outcome of Python `json.loads` on the model response string: either a
`json.JSONDecodeError` or a parsed value. -/
inductive LoadResult where
  | decodeError
  | ok (v : JValue)

/-- Embeds `generate_clarifying_questions` (`llm_manager.py`).  The model
response of `_call_llm_non_streaming_json` is abstracted as
`response : Option LoadResult`: `none` models a falsy `response_str`
(`None` from the transport, or the empty string), `some .decodeError` a
truthy string on which `json.loads` raises, and `some (.ok v)` a string
parsing to `v`.  The returned value is `.ok none` for Python `return None`,
`.ok (some q)` for `return response_json["questions"]` (which returns the
raw JSON value, unvalidated), and `.error e` when an exception escapes the
function.  The `except` clause catches only
`(json.JSONDecodeError, KeyError, TypeError)`, so the `AttributeError`
raised by `.get` on a parsed non-dict value propagates to the caller. -/
def generate_clarifying_questions (response : Option LoadResult) :
    Except PyExc (Option JValue) :=
  match response with
  | none => .ok none
  | some .decodeError => .ok none
  | some (.ok v) =>
    match v with
    | .jobj kvs =>
      if (dictGet kvs "clarification_needed").truthy && (dictGet kvs "questions").truthy then
        .ok (some (dictGet kvs "questions"))
      else
        .ok none
    | _ => .error .attributeError

/-- A chat message, Python dict `{"role": ..., "content": ...}`. -/
structure Message where
  role : String
  content : String
deriving DecidableEq

/-- One raw line of a streaming HTTP response body, as seen by the loop
over `response.iter_lines()` in `_call_llm_streaming`
(`llm_api_utils.py`).  `empty` models a falsy line, `other` a line not
starting with `data: ` (both are skipped), `done` the sentinel line
`data: [DONE]`, and `data p` a `data: `-prefixed line whose payload
`json.loads` result is `p`. -/
inductive RawLine where
  | empty
  | other (s : String)
  | done
  | data (p : LoadResult)

/-- Outcome of one `requests.post` attempt: a `RequestException` raised
before any response (connection error, timeout), or an HTTP response with
a status code and body lines.  `response.raise_for_status()` turns any
status ≥ 400 into an `HTTPError`, a subclass of `RequestException`. -/
inductive AttemptOutcome where
  | netError
  | response (status : Nat) (lines : List RawLine)

/-- Embeds `chunk.get('choices', [{}])[0].get('delta', {}).get('content')`
from `_call_llm_streaming`.  `[0]` on an empty list raises `IndexError`;
subscripting a clearly non-indexable value is modelled as `TypeError`
(the theorems below never reach that corner); `.get` on a non-dict raises
`AttributeError`. -/
def extract_content (chunk : JValue) : Except PyExc JValue :=
  match chunk with
  | .jobj kvs =>
    match (kvs.lookup "choices").getD (.jarr [.jobj []]) with
    | .jarr [] => .error .indexError
    | .jarr (c0 :: _) =>
      match c0 with
      | .jobj kvs0 =>
        match (kvs0.lookup "delta").getD (.jobj []) with
        | .jobj kvsd => .ok (dictGet kvsd "content")
        | _ => .error .attributeError
      | _ => .error .attributeError
    | _ => .error .typeError
  | _ => .error .attributeError

/-- Runs the `for line in response.iter_lines()` loop of
`_call_llm_streaming` over the body lines, returning the values yielded
by the generator and the exception escaping it, if any.  Falsy and
non-`data: ` lines are skipped; `data: [DONE]` returns; a payload whose
parse raises `json.JSONDecodeError`, or whose field extraction raises
`IndexError`, is skipped by the inner `except ... continue`; truthy
extracted content is yielded (`if content := ...`); other exceptions
escape. -/
def processLines : List RawLine → List JValue × Option PyExc
  | [] => ([], none)
  | .empty :: rest => processLines rest
  | .other _ :: rest => processLines rest
  | .done :: _ => ([], none)
  | .data .decodeError :: rest => processLines rest
  | .data (.ok chunk) :: rest =>
    match extract_content chunk with
    | .error .indexError => processLines rest
    | .error e => ([], some e)
    | .ok content =>
      if content.truthy then
        match processLines rest with
        | (ys, exc) => (content :: ys, exc)
      else processLines rest

/-- `max_retries = 3` in `_call_llm_streaming`. -/
def max_retries : Nat := 3

/-- The terminal error chunk yielded by `_call_llm_streaming` when all
retries are exhausted. -/
def errorFragment : String :=
  "\n\nError: Could not connect to the AI model. Please check your configuration."

/-- Observable behaviour of one run of the `_call_llm_streaming`
generator: the values it yields, the durations of its `time.sleep` calls
(in backoff units), the number of `requests.post` attempts made, and the
exception escaping the generator, if any. -/
structure StreamRun where
  yields : List JValue
  sleeps : List Nat
  attemptsMade : Nat
  exc : Option PyExc

/-- Embeds the `for attempt in range(max_retries)` retry loop of
`_call_llm_streaming`, iterating over the remaining attempt indices.
`env` gives the transport outcome of each attempt.  Any
`RequestException` (network error, or `HTTPError` from
`raise_for_status` on status ≥ 400, transient or not) takes the same
path: sleep `2 ** attempt` and retry while `attempt < max_retries - 1`,
else yield the terminal error fragment and return. -/
def streamLoop (env : Nat → AttemptOutcome) : List Nat → StreamRun
  | [] => ⟨[], [], 0, none⟩
  | attempt :: rest =>
    match env attempt with
    | .netError =>
      if attempt < max_retries - 1 then
        match streamLoop env rest with
        | ⟨ys, ss, n, e⟩ => ⟨ys, 2 ^ attempt :: ss, n + 1, e⟩
      else ⟨[.jstr errorFragment], [], 1, none⟩
    | .response status lines =>
      if 400 ≤ status then
        if attempt < max_retries - 1 then
          match streamLoop env rest with
          | ⟨ys, ss, n, e⟩ => ⟨ys, 2 ^ attempt :: ss, n + 1, e⟩
        else ⟨[.jstr errorFragment], [], 1, none⟩
      else
        match processLines lines with
        | (ys, e) => ⟨ys, [], 1, e⟩

/-- Embeds `_call_llm_streaming(messages, temperature)`
(`llm_api_utils.py`).  The `messages` argument is placed in the request
payload; the endpoint behaviour is abstracted by `env`. -/
def _call_llm_streaming (messages : List Message) (env : Nat → AttemptOutcome) :
    StreamRun :=
  streamLoop env (List.range max_retries)

/-- A stored passage: a document chunk with the metadata that
`process_and_embed_document` attaches
(`chunk.metadata = {"chat_id": chat_id, "document_name": ...}`). -/
structure Passage where
  text : String
  session_id : String
  document_name : String
deriving DecidableEq

/-- The multi-session HANA vector index, holding all stored passages.
The list order is the similarity-descending rank order for the current
query (similarity scoring itself is external). -/
structure VectorIndex where
  passages : List Passage
deriving DecidableEq

/-- Modelled from the spec: the Vector Index is external to `src/`
(langchain `HanaDB`); per §6 its `search(query, top_k, filter)` returns
up to `top_k` passages whose metadata session identifier equals the
filter value, ranked by similarity descending.  This models the
retriever built by `get_conversational_context` with
`search_kwargs={"k": top_k, "filter": {"chat_id": chat_id}}`: the index
filters on the session identifier and truncates to `k`. -/
def vectorIndexSearch (idx : VectorIndex) (k : Nat) (sid : String) : List Passage :=
  (idx.passages.filter (fun p => p.session_id == sid)).take k

/-- Modelled from the spec: `delete(filter={"chat_id": chat_id})` on the
external Vector Index removes exactly the passages whose session
identifier matches the filter (§6: deletion by session identifier). -/
def vectorIndexDelete (idx : VectorIndex) (sid : String) : VectorIndex :=
  ⟨idx.passages.filter (fun p => p.session_id != sid)⟩

/-- Modelled from the spec: `add(passages)` on the external Vector Index
stores the given passages. -/
def vectorIndexAdd (idx : VectorIndex) (chunks : List Passage) : VectorIndex :=
  ⟨idx.passages ++ chunks⟩

/-- Default of the `top_k` parameter of `get_conversational_context`. -/
def top_k_default : Nat := 3

/-- Outcome of running the history-aware retriever chain (rewriter LLM
call plus index query) inside the `try` block of
`get_conversational_context`: it either raises some exception or
completes, in which case the index returns the session-filtered top-k
passages.  The rewritten standalone query only influences similarity
ranking, which is already abstracted into the order of
`VectorIndex.passages`. -/
inductive ChainOutcome where
  | raises
  | completes

/-- The `try` block of `get_conversational_context` (`rag_engine.py`):
build the retriever with `k = top_k` and filter `{"chat_id": chat_id}`,
invoke the history-aware chain, and join the retrieved passage texts
with `"\n---\n"` in rank order. -/
def tryGetContext (idx : VectorIndex) (chat_id : String) (top_k : Nat)
    (chain : ChainOutcome) : Except PyExc String :=
  match chain with
  | .raises => .error .runtimeError
  | .completes =>
    .ok (String.intercalate "\n---\n"
      ((vectorIndexSearch idx top_k chat_id).map Passage.text))

/-- Embeds `get_conversational_context` (`rag_engine.py`): returns `""`
when no vector store is bound (`if not vector_store: return ""`), and
`except Exception` converts any failure of the chain into `st.error`
plus `return ""`.  The result is `.ok` for a normal Python return. -/
def get_conversational_context (vector_store : Option VectorIndex)
    (chat_id : String) (top_k : Nat) (chain : ChainOutcome) :
    Except PyExc String :=
  match vector_store with
  | none => .ok ""
  | some idx =>
    match tryGetContext idx chat_id top_k chain with
    | .error _ => .ok ""
    | .ok s => .ok s

/-- Outcome of the `try` block of `delete_hana_context`: obtaining the
connection / vector store or the filtered delete raises, or the delete
succeeds. -/
inductive DeleteOutcome where
  | raises
  | succeeds

/-- The `try` block of `delete_hana_context` (`rag_engine.py`):
`vector_store.delete(filter={"chat_id": chat_id})`, which can raise. -/
def tryDeleteHana (idx : VectorIndex) (chat_id : String) (o : DeleteOutcome) :
    Except PyExc VectorIndex :=
  match o with
  | .raises => .error .runtimeError
  | .succeeds => .ok (vectorIndexDelete idx chat_id)

/-- Embeds `delete_hana_context` (`rag_engine.py`): `except Exception`
turns any failure into `st.warning` and a normal return, leaving the
index unchanged.  The result is the index state after the call; it is
`.ok` whenever no exception escapes. -/
def delete_hana_context (idx : VectorIndex) (chat_id : String) (o : DeleteOutcome) :
    Except PyExc VectorIndex :=
  match tryDeleteHana idx chat_id o with
  | .error _ => .ok idx
  | .ok idx2 => .ok idx2

/-- Base persona line of the system message in `generate_llm_response`
(`llm_manager.py`). -/
def baseSystem : String := "You are a helpful and friendly AI assistant."

/-- Text appended to the system message when `context` is truthy in
`generate_llm_response` (grounding instructions around the context
block).  The pieces are concatenated exactly as the adjacent Python
string literals are. -/
def groundedSuffix (context : String) : String :=
  "\n\n--- CONTEXT ---\n" ++ context ++ "\n--- END CONTEXT ---\n\n" ++
  "You MUST answer the user" ++ "\x27" ++ "s question based ONLY on the provided context. " ++
  "If the answer is not in the context, state that clearly." ++
  "Cite the source of your answer from the context if possible."

/-- Text appended to the system message when `context` is falsy in
`generate_llm_response`. -/
def ungroundedSuffix : String :=
  "\nAnswer the user" ++ "\x27" ++ "s question directly and helpfully."

/-- Python truthiness of the `context: Optional[str]` argument:
`None` and `""` are falsy. -/
def contextTruthy : Option String → Bool
  | none => false
  | some s => !s.isEmpty

/-- The system message content built by `generate_llm_response`. -/
def systemContent (context : Option String) : String :=
  baseSystem ++
    (match context with
     | some c => if !c.isEmpty then groundedSuffix c else ungroundedSuffix
     | none => ungroundedSuffix)

/-- The message sequence assembled by `generate_llm_response`:
`[{"role": "system", ...}] + history` followed by
`messages.append({"role": "user", "content": prompt})`. -/
def generate_llm_response_messages (history : List Message) (prompt : String)
    (context : Option String) : List Message :=
  (⟨"system", systemContent context⟩ :: history) ++ [⟨"user", prompt⟩]

/-- Embeds `generate_llm_response` (`llm_manager.py`): builds the message
sequence and delegates to the Transport Client
(`yield from _call_llm_streaming(messages)`). -/
def generate_llm_response (history : List Message) (prompt : String)
    (context : Option String) (env : Nat → AttemptOutcome) : StreamRun :=
  _call_llm_streaming (generate_llm_response_messages history prompt context) env

/-- An operation issued by the core to the Vector Index.  Both carry the
session identifier: the delete as its filter, the add through the
`chat_id` metadata stamped on every chunk. -/
inductive IndexOp where
  | deleteOp (sid : String)
  | addOp (sid : String)
deriving DecidableEq

/-- The file extensions accepted by `document_upload_callback`
(`app.py`). -/
def supported_types : List String := ["pdf", "txt", "docx", "odt"]

/-- Embeds `document_upload_callback` (`app.py`) as the trace of index
operations it issues, in program order.  `upload` is `none` when the
uploader was cleared (`if not uploaded_file`), else the lowercased
extension of the uploaded file name; `addIssued` is whether
`process_and_embed_document` reaches its `vector_store.add_documents`
call (document loading can fail first and return `None`).  The cleared
path calls `delete_context` and returns; an unsupported extension is
rejected before any index operation; a supported upload calls
`delete_context(chat_id)` and only then `process_document`. -/
def document_upload_callback (chat_id : String) (upload : Option String)
    (addIssued : Bool) : List IndexOp :=
  match upload with
  | none => [.deleteOp chat_id]
  | some ext =>
    if ext ∈ supported_types then
      .deleteOp chat_id :: (if addIssued then [.addOp chat_id] else [])
    else []

/-- Composition of the supported-upload path of
`document_upload_callback` at the level of index contents:
`delete_context(chat_id)` (which absorbs deletion failures, see
`delete_hana_context`) followed by `process_and_embed_document` adding
the new chunks. -/
def upload_flow (idx : VectorIndex) (chat_id : String) (o : DeleteOutcome)
    (chunks : List Passage) : VectorIndex :=
  match delete_hana_context idx chat_id o with
  | .ok idx2 => vectorIndexAdd idx2 chunks
  | .error _ => idx

/-- C1: for a model response that is missing, malformed JSON, or a JSON
object failing the shape check, `generate_clarifying_questions` returns
`None` with no exception; but for a response that is valid JSON yet not
an object (here the array `[1, 2]`), `.get` raises `AttributeError`,
which the `except (json.JSONDecodeError, KeyError, TypeError)` clause
does not catch, so an exception escapes to the caller — contradicting
the fail-open contract.  The missing/malformed/object cases are included
to show the bug is confined to non-object JSON. -/
theorem clarify_nonobject_json_raises :
    generate_clarifying_questions (some (.ok (.jarr [.jnum 1, .jnum 2]))) =
      .error .attributeError ∧
    generate_clarifying_questions none = .ok none ∧
    generate_clarifying_questions (some .decodeError) = .ok none ∧
    generate_clarifying_questions (some (.ok (.jobj [("unrelated", .jbool true)]))) =
      .ok none :=
  ⟨rfl, rfl, rfl, rfl⟩

/-- C9 counterexample: a model response classifying the question as vague
but carrying a single clarifying question is passed through as-is: the
classifier returns a 1-element questions list, not 3–4 questions. -/
theorem clarify_count_unvalidated_cex :
    generate_clarifying_questions (some (.ok (.jobj
      [("clarification_needed", .jbool true),
       ("questions", .jarr [.jstr "Which city?"])]))) =
      .ok (some (.jarr [.jstr "Which city?"])) ∧
    ¬(3 ≤ [JValue.jstr "Which city?"].length) :=
  ⟨rfl, by decide⟩

/-- C9 amended: when the model response is a JSON object whose
`clarification_needed` and `questions` fields are both truthy, the
classifier returns the model-provided `questions` value unchanged and
unvalidated (no 3–4 count check, no per-question non-emptiness check);
when either field is falsy or missing, and when the response is missing,
it returns `None` (the answerable verdict with empty questions). -/
theorem clarify_passthrough (kvs : List (String × JValue)) :
    ((dictGet kvs "clarification_needed").truthy = true →
      (dictGet kvs "questions").truthy = true →
      generate_clarifying_questions (some (.ok (.jobj kvs))) =
        .ok (some (dictGet kvs "questions"))) ∧
    ((dictGet kvs "clarification_needed").truthy = false ∨
      (dictGet kvs "questions").truthy = false →
      generate_clarifying_questions (some (.ok (.jobj kvs))) = .ok none) ∧
    generate_clarifying_questions none = .ok none := by
  refine ⟨?_, ?_, rfl⟩
  · intro h1 h2
    simp [generate_clarifying_questions, h1, h2]
  · intro h
    rcases h with h | h <;> simp [generate_clarifying_questions, h]

/-- Witness for `clarify_passthrough` at concrete model responses. -/
theorem clarify_passthrough_witness :
    generate_clarifying_questions (some (.ok (.jobj
      [("clarification_needed", .jbool true),
       ("questions", .jarr [.jstr "A?", .jstr "B?", .jstr "C?"])]))) =
      .ok (some (.jarr [.jstr "A?", .jstr "B?", .jstr "C?"])) ∧
    generate_clarifying_questions (some (.ok (.jobj
      [("clarification_needed", .jbool false)]))) = .ok none :=
  ⟨(clarify_passthrough
      [("clarification_needed", .jbool true),
       ("questions", .jarr [.jstr "A?", .jstr "B?", .jstr "C?"])]).1 rfl rfl,
   (clarify_passthrough [("clarification_needed", .jbool false)]).2.1 (Or.inl rfl)⟩

/-- Any failure of one `requests.post` attempt that raises
`requests.exceptions.RequestException`: a network-level error, or an
`HTTPError` from `raise_for_status` (status ≥ 400). -/
def RequestFailure (o : AttemptOutcome) : Prop :=
  o = .netError ∨ ∃ s ls, o = .response s ls ∧ 400 ≤ s

/-- A transient failure in the spec's sense: network error or 5xx. -/
def TransientFail (o : AttemptOutcome) : Prop :=
  o = .netError ∨ ∃ s ls, o = .response s ls ∧ 500 ≤ s

theorem TransientFail.requestFailure {o : AttemptOutcome}
    (h : TransientFail o) : RequestFailure o := by
  rcases h with h | ⟨s, ls, hr, hs⟩
  · exact Or.inl h
  · exact Or.inr ⟨s, ls, hr, by omega⟩

theorem streamLoop_fail_step (env : Nat → AttemptOutcome) (attempt : Nat)
    (rest : List Nat) (hfail : RequestFailure (env attempt))
    (hlt : attempt < max_retries - 1) :
    streamLoop env (attempt :: rest) =
      ⟨(streamLoop env rest).yields, 2 ^ attempt :: (streamLoop env rest).sleeps,
        (streamLoop env rest).attemptsMade + 1, (streamLoop env rest).exc⟩ := by
  rcases hfail with hne | ⟨s, ls, hresp, hs⟩
  · simp only [streamLoop]
    rw [hne]
    simp [hlt]
  · simp only [streamLoop]
    rw [hresp]
    simp [hlt, hs]

theorem streamLoop_fail_last (env : Nat → AttemptOutcome) (attempt : Nat)
    (rest : List Nat) (hfail : RequestFailure (env attempt))
    (hge : ¬ attempt < max_retries - 1) :
    streamLoop env (attempt :: rest) = ⟨[.jstr errorFragment], [], 1, none⟩ := by
  rcases hfail with hne | ⟨s, ls, hresp, hs⟩
  · simp only [streamLoop]
    rw [hne]
    simp [hge]
  · simp only [streamLoop]
    rw [hresp]
    simp [hge, hs]

/-- C2 amended: when every attempt fails transiently (network error or
5xx), `_call_llm_streaming` makes exactly 3 attempts, sleeps between
consecutive attempts with exponentially doubling delays of 1 and 2
backoff units (totalling 3, not 1+2+4 = 7: no sleep follows the final
attempt), then yields exactly one terminal error fragment, the stream
ends, and no exception escapes. -/
theorem streaming_transient_retry_behavior (env : Nat → AttemptOutcome)
    (h : ∀ i, i < max_retries → TransientFail (env i)) :
    ∀ messages : List Message,
      _call_llm_streaming messages env =
        ⟨[.jstr errorFragment], [1, 2], 3, none⟩ := by
  intro messages
  have hrange : List.range max_retries = [0, 1, 2] := rfl
  rw [_call_llm_streaming, hrange,
    streamLoop_fail_step env 0 [1, 2] (h 0 (by decide)).requestFailure (by decide),
    streamLoop_fail_step env 1 [2] (h 1 (by decide)).requestFailure (by decide),
    streamLoop_fail_last env 2 [] (h 2 (by decide)).requestFailure (by decide)]
  rfl

/-- Witness for `streaming_transient_retry_behavior`: three consecutive
HTTP 503 responses. -/
theorem streaming_transient_retry_behavior_witness :
    _call_llm_streaming [] (fun _ => .response 503 []) =
      ⟨[.jstr errorFragment], [1, 2], 3, none⟩ :=
  streaming_transient_retry_behavior (fun _ => .response 503 [])
    (fun _ _ => Or.inr ⟨503, [], rfl, by omega⟩) []

/-- C2 counterexample: with every attempt a network error (a transient
failure on all attempts, satisfying the claim's hypothesis), the total
sleep is 1 + 2 = 3 backoff units, not the 1 + 2 + 4 = 7 the claim
states; attempts and the single terminal fragment are as claimed. -/
theorem streaming_backoff_total_cex :
    (_call_llm_streaming [] (fun _ => .netError)).sleeps.sum = 3 ∧
    (_call_llm_streaming [] (fun _ => .netError)).sleeps.sum ≠ 7 ∧
    (_call_llm_streaming [] (fun _ => .netError)).yields = [.jstr errorFragment] ∧
    (_call_llm_streaming [] (fun _ => .netError)).attemptsMade = 3 :=
  ⟨rfl, by decide, rfl, rfl⟩

/-- C3 counterexample: an HTTP 404 (non-transient 4xx) on every attempt
is retried exactly like a transient failure — 3 attempts with sleeps of
1 and 2 units — rather than surfacing after the first attempt with no
retry. -/
theorem streaming_4xx_retried_cex :
    (_call_llm_streaming [] (fun _ => .response 404 [])).attemptsMade = 3 ∧
    (_call_llm_streaming [] (fun _ => .response 404 [])).attemptsMade ≠ 1 ∧
    (_call_llm_streaming [] (fun _ => .response 404 [])).sleeps = [1, 2] :=
  ⟨rfl, by decide, rfl⟩

/-- C3 amended: `raise_for_status` makes any 4xx response raise
`HTTPError`, a `RequestException`, so 4xx failures take the same path as
transient ones — up to 3 attempts with backoff, then one terminal error
chunk.  A malformed payload line inside a successful (status < 400)
streaming response is neither retried nor surfaced: the line is skipped
by the inner `except ... continue` and the stream is otherwise
unchanged. -/
theorem streaming_nontransient_behavior :
    (∀ env : Nat → AttemptOutcome,
      (∀ i, i < max_retries → ∃ s ls, env i = .response s ls ∧ 400 ≤ s ∧ s < 500) →
      ∀ messages : List Message,
        _call_llm_streaming messages env =
          ⟨[.jstr errorFragment], [1, 2], 3, none⟩) ∧
    (∀ (env₁ env₂ : Nat → AttemptOutcome) (s : Nat) (ls : List RawLine)
      (messages : List Message), s < 400 →
      env₁ 0 = .response s (.data .decodeError :: ls) →
      env₂ 0 = .response s ls →
      _call_llm_streaming messages env₁ = _call_llm_streaming messages env₂) := by
  constructor
  · intro env h messages
    have hrange : List.range max_retries = [0, 1, 2] := rfl
    have hf : ∀ i, i < max_retries → RequestFailure (env i) := by
      intro i hi
      obtain ⟨s, ls, hr, hs, _⟩ := h i hi
      exact Or.inr ⟨s, ls, hr, hs⟩
    rw [_call_llm_streaming, hrange,
      streamLoop_fail_step env 0 [1, 2] (hf 0 (by decide)) (by decide),
      streamLoop_fail_step env 1 [2] (hf 1 (by decide)) (by decide),
      streamLoop_fail_last env 2 [] (hf 2 (by decide)) (by decide)]
    rfl
  · intro env₁ env₂ s ls messages hs h1 h2
    have hrange : List.range max_retries = [0, 1, 2] := rfl
    have hns : ¬ 400 ≤ s := by omega
    rw [_call_llm_streaming, _call_llm_streaming, hrange]
    simp only [streamLoop]
    rw [h1, h2]
    simp [hns, processLines]

/-- Witness for `streaming_nontransient_behavior`: a 404 on every
attempt, and a malformed payload line inside a 200 response. -/
theorem streaming_nontransient_behavior_witness :
    _call_llm_streaming [] (fun _ => .response 404 []) =
      ⟨[.jstr errorFragment], [1, 2], 3, none⟩ ∧
    _call_llm_streaming [] (fun _ => .response 200 [.data .decodeError]) =
      _call_llm_streaming [] (fun _ => .response 200 []) :=
  ⟨streaming_nontransient_behavior.1 (fun _ => .response 404 [])
      (fun _ _ => ⟨404, [], rfl, by omega, by omega⟩) [],
   streaming_nontransient_behavior.2 (fun _ => .response 200 [.data .decodeError])
      (fun _ => .response 200 []) 200 [] [] (by omega) rfl rfl⟩

/-- C4: `get_conversational_context` never raises to the caller: with no
vector store bound it returns the empty string, and any exception from
the rewriter chain or index query is absorbed by `except Exception`
(surfacing `st.error`) and converted to the empty string, so generation
proceeds ungrounded. -/
theorem retrieval_never_raises :
    ∀ (idx : VectorIndex) (cid : String) (k : Nat) (chain : ChainOutcome),
      (∃ s, get_conversational_context (some idx) cid k chain = .ok s) ∧
      get_conversational_context none cid k chain = .ok "" ∧
      get_conversational_context (some idx) cid k .raises = .ok "" := by
  intro idx cid k chain
  refine ⟨?_, rfl, rfl⟩
  cases chain
  · exact ⟨"", rfl⟩
  · exact ⟨_, rfl⟩

/-- C5: on a successful retrieval the context block is exactly the
retrieved passage texts joined with `"\n---\n"` in rank order; the index
is asked for at most `top_k` passages (the result is a rank-preserving
selection of at most `k` session-matching passages), and the `top_k`
default is 3. -/
theorem context_block_join :
    ∀ (idx : VectorIndex) (cid : String) (k : Nat),
      get_conversational_context (some idx) cid k .completes =
        .ok (String.intercalate "\n---\n"
          ((vectorIndexSearch idx k cid).map Passage.text)) ∧
      (vectorIndexSearch idx k cid).length ≤ k ∧
      List.Sublist (vectorIndexSearch idx k cid)
        (idx.passages.filter (fun p => p.session_id == cid)) ∧
      top_k_default = 3 := by
  intro idx cid k
  refine ⟨rfl, ?_, ?_, rfl⟩
  · exact List.length_take_le k _
  · exact List.take_sublist k _

/-- C6: retrieval is session-scoped — every passage returned by the
filtered index search carries the queried session identifier, so for
sessions A ≠ B a passage indexed under B never appears in a retrieval
for A; and the deletion used by the core removes exactly the passages of
the filtered session, leaving every other session's passages in place
(both the read and the delete carry the `chat_id` filter). -/
theorem retrieval_session_isolation :
    ∀ (idx : VectorIndex) (k : Nat) (A B : String) (p : Passage),
      (p ∈ vectorIndexSearch idx k A → p.session_id = A) ∧
      (A ≠ B → p.session_id = B → p ∉ vectorIndexSearch idx k A) ∧
      (p ∈ (vectorIndexDelete idx A).passages ↔
        p ∈ idx.passages ∧ p.session_id ≠ A) := by
  intro idx k A B p
  have hmem : p ∈ vectorIndexSearch idx k A → p.session_id = A := by
    intro hp
    have h1 := List.mem_of_mem_take hp
    have h2 := (List.mem_filter.mp h1).2
    exact eq_of_beq h2
  refine ⟨hmem, ?_, ?_⟩
  · intro hAB hB hp
    exact hAB ((hmem hp).symm.trans hB)
  · simp [vectorIndexDelete, List.mem_filter]

/-- Witness for `retrieval_session_isolation`: a passage stored under
session B is not retrieved for session A. -/
theorem retrieval_session_isolation_witness :
    (⟨"tb", "B", "d"⟩ : Passage) ∉
      vectorIndexSearch ⟨[⟨"ta", "A", "d"⟩, ⟨"tb", "B", "d"⟩]⟩ 3 "A" :=
  (retrieval_session_isolation ⟨[⟨"ta", "A", "d"⟩, ⟨"tb", "B", "d"⟩]⟩ 3 "A" "B"
    ⟨"tb", "B", "d"⟩).2.1 (by decide) rfl

theorem grounded_ne_ungrounded (c : String) :
    baseSystem ++ groundedSuffix c ≠ baseSystem ++ ungroundedSuffix := by
  intro h
  have hlen := congrArg String.length h
  have e1 : ("\n\n--- CONTEXT ---\n" : String).length = 18 := rfl
  have e2 : ("\n--- END CONTEXT ---\n\n" : String).length = 22 := rfl
  have e3 : ("You MUST answer the user" : String).length = 24 := rfl
  have e4 : ("\x27" : String).length = 1 := rfl
  have e5 : ("s question based ONLY on the provided context. " : String).length = 47 := rfl
  have e6 : ("If the answer is not in the context, state that clearly." : String).length = 56 := rfl
  have e7 : ("Cite the source of your answer from the context if possible." : String).length = 60 := rfl
  have e8 : ("\nAnswer the user" : String).length = 16 := rfl
  have e9 : ("s question directly and helpfully." : String).length = 34 := rfl
  simp only [groundedSuffix, ungroundedSuffix, String.length_append,
    e1, e2, e3, e4, e5, e6, e7, e8, e9] at hlen
  omega

/-- C7: `generate_llm_response` sends exactly
`[system] + history + [current question]` to the Transport Client; the
system message is the base persona followed by the grounding
instructions wrapped around the context block when `context` is truthy
(non-empty), and by the answer-directly instruction when `context` is
empty or absent — and the two forms never coincide, so the grounding
block appears if and only if context is non-empty. -/
theorem generate_messages_shape :
    ∀ (history : List Message) (prompt : String) (context : Option String)
      (env : Nat → AttemptOutcome),
      generate_llm_response_messages history prompt context =
        ⟨"system", systemContent context⟩ :: history ++ [⟨"user", prompt⟩] ∧
      generate_llm_response history prompt context env =
        _call_llm_streaming (generate_llm_response_messages history prompt context) env ∧
      (contextTruthy context = true →
        systemContent context = baseSystem ++ groundedSuffix (context.getD "")) ∧
      (contextTruthy context = false →
        systemContent context = baseSystem ++ ungroundedSuffix) ∧
      (∀ c, baseSystem ++ groundedSuffix c ≠ baseSystem ++ ungroundedSuffix) := by
  intro history prompt context env
  refine ⟨rfl, rfl, ?_, ?_, grounded_ne_ungrounded⟩
  · intro h
    cases context with
    | none => exact absurd h (by simp [contextTruthy])
    | some s =>
      have hs : s.isEmpty = false := by simpa [contextTruthy] using h
      simp [systemContent, hs]
  · intro h
    cases context with
    | none => rfl
    | some s =>
      have hs : s.isEmpty = true := by simpa [contextTruthy] using h
      simp [systemContent, hs]

/-- Witness for `generate_messages_shape`: a one-turn history with a
non-empty context and with no context. -/
theorem generate_messages_shape_witness :
    systemContent (some "CTX") = baseSystem ++ groundedSuffix "CTX" ∧
    systemContent none = baseSystem ++ ungroundedSuffix ∧
    generate_llm_response_messages [⟨"user", "hi"⟩] "q" (some "CTX") =
      ⟨"system", systemContent (some "CTX")⟩ :: [⟨"user", "hi"⟩] ++ [⟨"user", "q"⟩] :=
  ⟨(generate_messages_shape [] "q" (some "CTX") (fun _ => .netError)).2.2.1 rfl,
   (generate_messages_shape [] "q" none (fun _ => .netError)).2.2.2.1 rfl,
   (generate_messages_shape [⟨"user", "hi"⟩] "q" (some "CTX") (fun _ => .netError)).1⟩

/-- C8: in the index-operation trace of `document_upload_callback`,
every add of new context for a session is preceded by a delete of that
session's prior context; clearing the uploader issues exactly the
delete; and on a supported upload the first operation issued is the
delete — so at most one document context is active per session at a
time. -/
theorem upload_delete_before_add :
    ∀ (cid sid : String) (upload : Option String) (addIssued : Bool)
      (l₁ l₂ : List IndexOp),
      (document_upload_callback cid upload addIssued =
          l₁ ++ IndexOp.addOp sid :: l₂ →
        sid = cid ∧ IndexOp.deleteOp cid ∈ l₁) ∧
      document_upload_callback cid none addIssued = [.deleteOp cid] ∧
      (∀ ext, ext ∈ supported_types →
        (document_upload_callback cid (some ext) addIssued).head? =
          some (.deleteOp cid)) := by
  intro cid sid upload addIssued l₁ l₂
  refine ⟨?_, rfl, ?_⟩
  · intro h
    rcases upload with _ | ext
    · simp only [document_upload_callback] at h
      cases l₁ <;> simp_all
    · by_cases hext : ext ∈ supported_types
      · cases addIssued
        · simp only [document_upload_callback, if_pos hext] at h
          cases l₁ <;> simp_all
        · simp only [document_upload_callback, if_pos hext] at h
          simp only [if_true] at h
          rcases l₁ with _ | ⟨x, _ | ⟨y, rest⟩⟩
          · simp_all
          · simp only [List.cons_append, List.nil_append, List.cons.injEq,
              IndexOp.addOp.injEq] at h
            obtain ⟨h1, h2, h3⟩ := h
            subst h1
            exact ⟨h2.symm, by simp⟩
          · simp_all
      · simp [document_upload_callback, hext] at h
  · intro ext hext
    cases addIssued <;> simp [document_upload_callback, hext]

/-- Witness for `upload_delete_before_add`: a supported upload whose
trace is `[delete, add]`, decomposed around the add. -/
theorem upload_delete_before_add_witness :
    "s1" = "s1" ∧ IndexOp.deleteOp "s1" ∈ [IndexOp.deleteOp "s1"] :=
  (upload_delete_before_add "s1" "s1" (some "pdf") true
    [IndexOp.deleteOp "s1"] []).1 (by decide)

/-- C10: `delete_hana_context` absorbs every exception of the underlying
index deletion and returns normally (with the index unchanged on
failure), so the upload path cannot observe a deletion failure: it
proceeds to add the new chunks even though the old context was not
removed, and every stale passage survives alongside the new ones. -/
theorem delete_context_absorbs_errors :
    ∀ (idx : VectorIndex) (cid : String) (o : DeleteOutcome)
      (chunks : List Passage),
      (∃ idx2, delete_hana_context idx cid o = .ok idx2) ∧
      delete_hana_context idx cid .raises = .ok idx ∧
      upload_flow idx cid .raises chunks = vectorIndexAdd idx chunks ∧
      (∀ p, p ∈ idx.passages → p ∈ (upload_flow idx cid .raises chunks).passages) := by
  intro idx cid o chunks
  refine ⟨?_, rfl, rfl, ?_⟩
  · cases o
    · exact ⟨idx, rfl⟩
    · exact ⟨_, rfl⟩
  · intro p hp
    simp [upload_flow, delete_hana_context, tryDeleteHana, vectorIndexAdd]
    exact Or.inl hp

/-- Witness for `delete_context_absorbs_errors`: after a failed delete,
the stale session-A passage is still present next to the new chunks. -/
theorem delete_context_absorbs_errors_witness :
    delete_hana_context ⟨[⟨"t", "A", "d"⟩]⟩ "A" .raises = .ok ⟨[⟨"t", "A", "d"⟩]⟩ ∧
    (⟨"t", "A", "d"⟩ : Passage) ∈
      (upload_flow ⟨[⟨"t", "A", "d"⟩]⟩ "A" .raises [⟨"u", "A", "d2"⟩]).passages :=
  ⟨(delete_context_absorbs_errors ⟨[⟨"t", "A", "d"⟩]⟩ "A" .raises
      [⟨"u", "A", "d2"⟩]).2.1,
   (delete_context_absorbs_errors ⟨[⟨"t", "A", "d"⟩]⟩ "A" .raises
      [⟨"u", "A", "d2"⟩]).2.2.2 ⟨"t", "A", "d"⟩ (by decide)⟩

end Crave
